import Mathlib

/-!
Verification of the plugin lifecycle supervisor in
`cmd/device-plugin/nvidia/main.go`.

The embedding below translates the Go source into Lean definitions:

* a `Plugin` models a value of the Go interface `plugin.Interface`; since the
  supervisor only observes `Devices()`, `Start()` and `Stop()`, a plugin is
  modelled by the device list it reports and by the results its `Start` and
  `Stop` calls return (`none` models a nil Go error);
* `stopLoop` / `stopPlugins` embed the Go function `stopPlugins`
  (main.go lines 337-345), together with the trace of `Stop` calls it makes;
* `startLoop` / `startPlugins` embed the start loop of the Go function
  `startPlugins` (main.go lines 313-334); the configuration loading and
  plugin construction stages that precede the loop abort the process on
  failure and are abstracted as having succeeded, with the constructed
  plugin list passed in as the argument;
* `runPassT` and `step` embed one pass of the `restart:` label and one
  iteration of the event `select` of the Go function `start`
  (main.go lines 200-266), with `SupState` holding the loop variables
  `restarting`, `restartTimeout` and `plugins`;
* the configuration model (`Config`, `validateFlags`, `loadConfig`,
  `disableResourceRenamingInConfig`) embeds main.go lines 159-182 and
  349-383.
-/

/-- Model of a value of the Go interface `plugin.Interface` as observed by the
supervisor: the devices it reports, and the error results of its `Start` and
`Stop` calls (`none` is a nil Go error). -/
structure Plugin where
  devices : List String
  startErr : Option String
  stopErr : Option String
deriving DecidableEq, Repr

/-- Embedding of `errorsutil.NewAggregate` from
`k8s.io/apimachinery/pkg/util/errors`: nil errors in the list are discarded;
the aggregate is nil exactly when no non-nil error remains. -/
def NewAggregate (errs : List (Option String)) : Option (List String) :=
  let filtered := errs.filterMap id
  if filtered.isEmpty = true then none else some filtered

/-- The `for _, p := range plugins` loop of Go `stopPlugins`
(main.go lines 340-343): calls `Stop` on every plugin in order and collects
every result. Returns the trace of plugins whose `Stop` was called (in call
order) and the list of collected results. -/
def stopLoop : List Plugin → List Plugin × List (Option String)
  | [] => ([], [])
  | p :: rest =>
      let r := stopLoop rest
      (p :: r.1, p.stopErr :: r.2)

/-- Embedding of Go `stopPlugins` (main.go lines 337-345): stop every plugin,
aggregate the collected errors. First component: the trace of `Stop` calls. -/
def stopPlugins (plugins : List Plugin) : List Plugin × Option (List String) :=
  let r := stopLoop plugins
  (r.1, NewAggregate r.2)

/-- The start loop of Go `startPlugins` (main.go lines 313-334). `all` is the
constructed plugin list (the Go variable `plugins`), the first list argument
is the remaining suffix being iterated, the second is the accumulated trace
of plugins on which `Start` was called. Result: the returned plugin list,
the `restartPlugins` flag, the returned error, and the `Start` call trace.
Mirrors the source: a plugin with no devices is skipped; on the first `Start`
failure the loop returns `plugins, true, nil`; otherwise `plugins, false, nil`. -/
def startLoop (all : List Plugin) :
    List Plugin → List Plugin → List Plugin × Bool × Option String × List Plugin
  | [], acc => (all, false, none, acc)
  | p :: rest, acc =>
      if p.devices.isEmpty = true then startLoop all rest acc
      else if p.startErr.isSome = true then (all, true, none, acc ++ [p])
      else startLoop all rest (acc ++ [p])

/-- Embedding of the start loop of Go `startPlugins` applied to the
constructed plugin list. -/
def startPlugins (plugins : List Plugin) :
    List Plugin × Bool × Option String × List Plugin :=
  startLoop plugins plugins []

/-- The fixed retry delay armed on a degraded pass:
`restartTimeout = time.After(30 * time.Second)` (main.go line 220). -/
def retryDelaySeconds : Nat := 30

/-- The loop state of Go `start` (main.go lines 200-202): the `restarting`
flag, the pending retry timer (`restartTimeout`; `some d` is a timer channel
armed with delay `d` that has not yet fired, `none` is a nil or already
fired channel, on which the `select` blocks forever), and the owned plugin
list (the Go variable `plugins`). -/
structure SupState where
  restarting : Bool
  timer : Option Nat
  owned : List Plugin
deriving DecidableEq, Repr

/-- Outcome of one supervisor transition: keep looping in a new state, or
terminate the process with the given exit status (a start error is logged by
`main` and the process exits 1; a clean return exits 0). -/
inductive LoopOutcome where
  | cont (s : SupState)
  | exited (code : Nat)
deriving DecidableEq, Repr

/-- The body of a start pass after the stop step (main.go lines 212-223):
run `startPlugins`, arm the retry timer if the pass was degraded (leaving
the previous timer variable untouched otherwise), set `restarting = true`,
and own the returned plugin list. -/
def passBody (s : SupState) (ps : List Plugin) : LoopOutcome × Bool :=
  let r := startPlugins ps
  (LoopOutcome.cont
    { restarting := true
      timer := if r.2.1 = true then some retryDelaySeconds else s.timer
      owned := r.1 },
   true)

/-- One pass through the `restart:` label of Go `start`
(main.go lines 203-223), with `ps` the plugin list the pass constructs.
If `restarting` is set, plugins from the previous pass are stopped first;
a non-nil stop aggregate makes `start` return an error, which `main` turns
into process exit status 1. The second component records whether the start
pass (the call to `startPlugins`) was reached. -/
def runPassT (s : SupState) (ps : List Plugin) : LoopOutcome × Bool :=
  if s.restarting = true then
    if (stopPlugins s.owned).2.isSome = true then (LoopOutcome.exited 1, false)
    else passBody s ps
  else passBody s ps

/-- The event sources multiplexed by the `select` of Go `start`
(main.go lines 227-259). -/
inductive Event where
  | timerFire
  | fsCreateKubeletSocket
  | fsOtherEvent
  | fsError
  | sighup
  | terminalSignal
deriving DecidableEq, Repr

/-- One iteration of the event `select` of Go `start` (main.go lines
227-266). `ps` is the plugin list a triggered pass would construct. The
timer event is only enabled while a timer is pending (`none` means the event
cannot be delivered). A terminal signal stops every owned plugin and exits:
status 0 when the stop aggregate is nil, else `start` returns an error and
`main` exits with status 1. -/
def step (s : SupState) (e : Event) (ps : List Plugin) : Option LoopOutcome :=
  match e with
  | Event.timerFire =>
      if s.timer.isSome = true then some (runPassT { s with timer := none } ps).1
      else none
  | Event.fsCreateKubeletSocket => some (runPassT s ps).1
  | Event.fsOtherEvent => some (LoopOutcome.cont s)
  | Event.fsError => some (LoopOutcome.cont s)
  | Event.sighup => some (runPassT s ps).1
  | Event.terminalSignal =>
      some (LoopOutcome.exited
        (if (stopPlugins s.owned).2.isSome = true then 1 else 0))

/-! Concrete plugins used as inputs for witnesses and counterexamples. -/

/-- A plugin with one device whose `Start` and `Stop` both succeed. -/
def goodPlugin : Plugin := ⟨["d0"], none, none⟩

/-- A second healthy plugin. -/
def goodPlugin2 : Plugin := ⟨["d3"], none, none⟩

/-- A plugin whose `Stop` call fails. -/
def badStopPlugin : Plugin := ⟨["d1"], none, some ("stop failed")⟩

/-- A plugin whose `Start` call fails. -/
def badStartPlugin : Plugin := ⟨["d2"], some ("start failed"), none⟩

/-- A plugin reporting no devices. -/
def zeroDevPlugin : Plugin := ⟨[], none, none⟩

/-! Helper lemmas about the stop path. -/

lemma stopLoop_spec (ps : List Plugin) :
    stopLoop ps = (ps, ps.map (fun p => p.stopErr)) := by
  induction ps with
  | nil => rfl
  | cons p rest ih => simp [stopLoop, ih]

lemma aggregate_none_iff (l : List (Option String)) :
    NewAggregate l = none ↔ ∀ o ∈ l, o = none := by
  induction l with
  | nil => simp [NewAggregate]
  | cons o rest ih =>
      cases o with
      | none =>
          have hred : NewAggregate (none :: rest) = NewAggregate rest := by
            simp [NewAggregate]
          rw [hred, ih]
          constructor
          · intro h x hx
            rcases List.mem_cons.mp hx with h1 | h2
            · exact h1
            · exact h x h2
          · intro h x hx
            exact h x (List.mem_cons_of_mem _ hx)
      | some e =>
          simp [NewAggregate]

lemma stopPlugins_trace (ps : List Plugin) : (stopPlugins ps).1 = ps := by
  simp [stopPlugins, stopLoop_spec]

lemma stopPlugins_none_iff (ps : List Plugin) :
    (stopPlugins ps).2 = none ↔ ∀ p ∈ ps, p.stopErr = none := by
  show NewAggregate (stopLoop ps).2 = none ↔ _
  rw [stopLoop_spec, aggregate_none_iff]
  simp

/-! Helper lemmas about the start loop. -/

lemma startLoop_skip_ok (all : List Plugin) (pre rest acc : List Plugin)
    (h : ∀ p ∈ pre, p.devices = [] ∨ p.startErr = none) :
    startLoop all (pre ++ rest) acc =
      startLoop all rest (acc ++ pre.filter (fun p => !p.devices.isEmpty)) := by
  induction pre generalizing acc with
  | nil => simp
  | cons p pre ih =>
      have hp := h p (by simp)
      have hrest : ∀ q ∈ pre, q.devices = [] ∨ q.startErr = none :=
        fun q hq => h q (by simp [hq])
      by_cases hd : p.devices.isEmpty = true
      · have : startLoop all ((p :: pre) ++ rest) acc =
            startLoop all (pre ++ rest) acc := by
          simp [startLoop, hd]
        rw [this, ih _ hrest]
        have hfilter : (p :: pre).filter (fun q => !q.devices.isEmpty) =
            pre.filter (fun q => !q.devices.isEmpty) := by
          simp [List.filter_cons, hd]
        rw [hfilter]
      · have hs : p.startErr = none := by
          rcases hp with hd2 | hs
          · exact absurd (by simp [hd2]) hd
          · exact hs
        have hnone : p.startErr.isSome = false := by simp [hs]
        have : startLoop all ((p :: pre) ++ rest) acc =
            startLoop all (pre ++ rest) (acc ++ [p]) := by
          simp [startLoop, hd, hnone]
        rw [this, ih _ hrest]
        have hfilter : (p :: pre).filter (fun q => !q.devices.isEmpty) =
            p :: pre.filter (fun q => !q.devices.isEmpty) := by
          simp [List.filter_cons, Bool.not_eq_true] at hd ⊢
          simp [hd]
        rw [hfilter, List.append_assoc]
        simp

lemma startLoop_fail_head (all : List Plugin) (pf : Plugin)
    (post acc : List Plugin)
    (hd : pf.devices.isEmpty = false) (hf : pf.startErr.isSome = true) :
    startLoop all (pf :: post) acc = (all, true, none, acc ++ [pf]) := by
  simp [startLoop, hd, hf]

lemma startLoop_all_zero (all rest acc : List Plugin)
    (h : ∀ p ∈ rest, p.devices = []) :
    startLoop all rest acc = (all, false, none, acc) := by
  induction rest generalizing acc with
  | nil => rfl
  | cons p rest ih =>
      have hp : p.devices = [] := h p (by simp)
      have : p.devices.isEmpty = true := by simp [hp]
      simp only [startLoop, this, if_pos rfl]
      exact ih acc (fun q hq => h q (by simp [hq]))

/-! Claim C9: stopPlugins stops every plugin in order and aggregates. -/

/-- Claim C9: `stopPlugins` calls `Stop` exactly once on every plugin in its
input list in order (the call trace equals the input list), never
short-circuiting on an earlier failure, and its aggregate error is nil if
and only if every individual `Stop` call returned nil. -/
theorem c9_stop_all_aggregate (ps : List Plugin) :
    (stopPlugins ps).1 = ps ∧
    ((stopPlugins ps).2 = none ↔ ∀ p ∈ ps, p.stopErr = none) :=
  ⟨stopPlugins_trace ps, stopPlugins_none_iff ps⟩

/-- Witness for C9 at a concrete plugin list. -/
theorem c9_stop_all_aggregate_witness :
    (stopPlugins [goodPlugin, goodPlugin2]).1 = [goodPlugin, goodPlugin2] ∧
    (stopPlugins [goodPlugin, goodPlugin2]).2 = none :=
  ⟨(c9_stop_all_aggregate [goodPlugin, goodPlugin2]).1,
   (c9_stop_all_aggregate [goodPlugin, goodPlugin2]).2.mpr (by decide)⟩

/-! Claim C1: on a restart pass, stop errors and the new start pass. -/

/-- Claim C1 counterexample: the claim states that on a restart pass a
non-nil stop aggregate never prevents the new start pass from running. In
the code (main.go lines 205-210) a non-nil aggregate makes `start` return
before `startPlugins` is called: with a previously owned plugin whose `Stop`
fails, the start pass does not run. -/
theorem c1_counterexample :
    ¬ (∀ (prev ps : List Plugin) (t : Option Nat),
        (runPassT ⟨true, t, prev⟩ ps).2 = true) := by
  intro h
  exact absurd (h [badStopPlugin] [] none) (by decide)

/-- Claim C1 (amended): on a restart pass the supervisor stops every handle
from the previous pass and aggregates the errors, but the new start pass
runs only when the aggregate is nil; a non-nil aggregate makes `start`
return an error and the process exits with status 1. -/
theorem c1_amended (prev ps : List Plugin) (t : Option Nat) :
    ((runPassT ⟨true, t, prev⟩ ps).2 = true ↔ (stopPlugins prev).2 = none) ∧
    ((stopPlugins prev).2.isSome = true →
      (runPassT ⟨true, t, prev⟩ ps).1 = LoopOutcome.exited 1) := by
  unfold runPassT passBody
  cases h : (stopPlugins prev).2 <;> simp [h]

/-- Witness for C1 (amended) at a concrete previous handle set. -/
theorem c1_amended_witness :
    (runPassT ⟨true, none, [badStopPlugin]⟩ []).1 = LoopOutcome.exited 1 :=
  (c1_amended [badStopPlugin] [] none).2 (by decide)

/-! Claim C2: terminal signal, N stop calls, exit status. -/

/-- Claim C2 counterexample: the claim states the process exits with status
0 on a terminal signal even if some `Stop` calls return errors. In the code
(main.go lines 260-265 and 152-156) a non-nil stop aggregate makes `start`
return an error and `main` call `os.Exit(1)`: with one owned plugin whose
`Stop` fails, the `Stop` call count is 1 but the exit status is 1, not 0. -/
theorem c2_counterexample :
    (stopPlugins [badStopPlugin]).1.length = 1 ∧
    step ⟨true, none, [badStopPlugin]⟩ Event.terminalSignal [] =
      some (LoopOutcome.exited 1) ∧
    ¬ (step ⟨true, none, [badStopPlugin]⟩ Event.terminalSignal [] =
      some (LoopOutcome.exited 0)) := by decide

/-- Claim C2 (amended): on a terminal signal with N owned handles the
supervisor calls `Stop` exactly once per owned handle, in order (the stop
trace equals the owned list); the process exits with status 0 when every
`Stop` returns nil, and with status 1 when any `Stop` returns an error. -/
theorem c2_amended (owned ps : List Plugin) (r : Bool) (t : Option Nat) :
    (stopPlugins owned).1 = owned ∧
    ((∀ p ∈ owned, p.stopErr = none) →
      step ⟨r, t, owned⟩ Event.terminalSignal ps =
        some (LoopOutcome.exited 0)) ∧
    ((∃ p ∈ owned, p.stopErr ≠ none) →
      step ⟨r, t, owned⟩ Event.terminalSignal ps =
        some (LoopOutcome.exited 1)) := by
  refine ⟨stopPlugins_trace owned, ?_, ?_⟩
  · intro h
    have hagg : (stopPlugins owned).2 = none := (stopPlugins_none_iff owned).mpr h
    simp [step, hagg]
  · rintro ⟨p, hp, hne⟩
    have hagg : ¬ ((stopPlugins owned).2 = none) := by
      intro hn
      exact hne ((stopPlugins_none_iff owned).mp hn p hp)
    cases hsome : (stopPlugins owned).2 with
    | none => exact absurd hsome hagg
    | some l => simp [step, hsome]

/-- Witness for C2 (amended) at a concrete owned handle set. -/
theorem c2_amended_witness :
    (stopPlugins [goodPlugin, badStopPlugin]).1 = [goodPlugin, badStopPlugin] ∧
    step ⟨true, none, [goodPlugin, badStopPlugin]⟩ Event.terminalSignal [] =
      some (LoopOutcome.exited 1) :=
  ⟨(c2_amended [goodPlugin, badStopPlugin] [] true none).1,
   (c2_amended [goodPlugin, badStopPlugin] [] true none).2.2
     ⟨badStopPlugin, by decide, by decide⟩⟩

/-! Claim C3: first Start failure in a pass. -/

/-- Claim C3 counterexample: the claim states that on the first `Start`
failure at index i, the owned set kept for the next pass is exactly the
handles started before i plus the failed handle i. In the code (main.go
line 325, `return plugins, true, nil`) the entire constructed list is
returned: with `[badStartPlugin, goodPlugin]` the failure is at index 0, so
the claimed owned set is `[badStartPlugin]`, but the code keeps both
plugins (including `goodPlugin`, on which `Start` was never called). -/
theorem c3_counterexample :
    (startPlugins [badStartPlugin, goodPlugin]).2.2.2 = [badStartPlugin] ∧
    (startPlugins [badStartPlugin, goodPlugin]).2.1 = true ∧
    (startPlugins [badStartPlugin, goodPlugin]).1 =
      [badStartPlugin, goodPlugin] ∧
    ¬ ((startPlugins [badStartPlugin, goodPlugin]).1 = [badStartPlugin]) := by
  decide

/-- Claim C3 (amended): on the first `Start` failure the pass aborts the
remaining starts (`Start` is called exactly on the eligible plugins before
the failure plus the failing one), the owned set kept for the next pass is
the ENTIRE constructed plugin list (including plugins after the failure and
skipped zero-device plugins), the pass reports `restartPlugins = true` with
a nil error, and the retry timer is armed with a fixed delay of exactly 30
seconds. -/
theorem c3_amended (pre post : List Plugin) (pf : Plugin)
    (hpre : ∀ p ∈ pre, p.devices = [] ∨ p.startErr = none)
    (hd : pf.devices.isEmpty = false) (hf : pf.startErr.isSome = true) :
    startPlugins (pre ++ pf :: post) =
      (pre ++ pf :: post, true, none,
        pre.filter (fun p => !p.devices.isEmpty) ++ [pf]) ∧
    retryDelaySeconds = 30 ∧
    (runPassT ⟨false, none, []⟩ (pre ++ pf :: post)).1 =
      LoopOutcome.cont ⟨true, some 30, pre ++ pf :: post⟩ := by
  have hstart : startPlugins (pre ++ pf :: post) =
      (pre ++ pf :: post, true, none,
        pre.filter (fun p => !p.devices.isEmpty) ++ [pf]) := by
    unfold startPlugins
    rw [startLoop_skip_ok _ pre (pf :: post) [] hpre,
        startLoop_fail_head _ pf post _ hd hf]
    simp
  refine ⟨hstart, rfl, ?_⟩
  simp [runPassT, passBody, hstart, retryDelaySeconds]

/-- Witness for C3 (amended) at a concrete plugin list: a zero-device
plugin and a healthy plugin before the failing one, another plugin after. -/
theorem c3_amended_witness :
    startPlugins ([zeroDevPlugin, goodPlugin] ++ badStartPlugin :: [goodPlugin2]) =
      ([zeroDevPlugin, goodPlugin] ++ badStartPlugin :: [goodPlugin2], true, none,
        [zeroDevPlugin, goodPlugin].filter (fun p => !p.devices.isEmpty) ++
          [badStartPlugin]) ∧
    retryDelaySeconds = 30 ∧
    (runPassT ⟨false, none, []⟩
        ([zeroDevPlugin, goodPlugin] ++ badStartPlugin :: [goodPlugin2])).1 =
      LoopOutcome.cont
        ⟨true, some 30,
          [zeroDevPlugin, goodPlugin] ++ badStartPlugin :: [goodPlugin2]⟩ :=
  c3_amended [zeroDevPlugin, goodPlugin] [goodPlugin2] badStartPlugin
    (by decide) (by decide) (by decide)

/-! Claim C8: all plugins report zero devices. -/

/-- Claim C8: when every constructed plugin reports zero devices, the start
pass calls `Start` on no plugin (empty call trace), returns a nil error, is
marked non-degraded (`restartPlugins = false`), and the pass arms no retry
timer (the timer variable is left unchanged). -/
theorem c8_zero_devices_quiescent (ps : List Plugin) (t : Option Nat)
    (h : ∀ p ∈ ps, p.devices = []) :
    startPlugins ps = (ps, false, none, []) ∧
    (runPassT ⟨false, t, []⟩ ps).1 = LoopOutcome.cont ⟨true, t, ps⟩ := by
  have hs : startPlugins ps = (ps, false, none, []) :=
    startLoop_all_zero ps ps [] h
  refine ⟨hs, ?_⟩
  simp [runPassT, passBody, hs]

/-- Witness for C8 at a concrete zero-device plugin list. -/
theorem c8_zero_devices_quiescent_witness :
    startPlugins [zeroDevPlugin] = ([zeroDevPlugin], false, none, []) ∧
    (runPassT ⟨false, none, []⟩ [zeroDevPlugin]).1 =
      LoopOutcome.cont ⟨true, none, [zeroDevPlugin]⟩ :=
  c8_zero_devices_quiescent [zeroDevPlugin] none (by decide)

/-! Claim C4: retry timer and degraded passes. -/

/-- Claim C4 counterexample: the claim states that a retry-timer event
triggers a new start pass only when the most recent completed pass was
degraded. In the code the non-degraded branch (main.go lines 218-221) does
not clear `restartTimeout`, so a timer armed by an earlier degraded pass
stays pending: after a degraded first pass (arming the timer) followed by a
SIGHUP-triggered non-degraded pass, the timer event is still enabled and
triggers a restart, although the most recent completed pass was not
degraded. -/
theorem c4_counterexample :
    (runPassT ⟨false, none, []⟩ [badStartPlugin]).1 =
      LoopOutcome.cont ⟨true, some 30, [badStartPlugin]⟩ ∧
    (runPassT ⟨true, some 30, [badStartPlugin]⟩ []).1 =
      LoopOutcome.cont ⟨true, some 30, []⟩ ∧
    (startPlugins []).2.1 = false ∧
    ¬ (step ⟨true, some 30, []⟩ Event.timerFire [] = none) := by
  decide

/-- Claim C4 (amended): the retry timer is armed (with the fixed delay) by
degraded passes only, and arming overwrites any previously pending timer,
so at most one timer is pending; a timer event is enabled exactly when a
timer is pending and, once fired, the timer is consumed before the new pass
runs. However, a non-degraded pass does NOT cancel a pending timer armed by
an earlier degraded pass, so a timer-driven restart can also occur after a
non-degraded pass. -/
theorem c4_amended (s : SupState) (ps : List Plugin) :
    (∀ s', (runPassT s ps).1 = LoopOutcome.cont s' →
      s'.timer =
        (if (startPlugins ps).2.1 = true then some retryDelaySeconds
         else s.timer)) ∧
    (step s Event.timerFire ps = none ↔ s.timer = none) ∧
    (∀ d : Nat, s.timer = some d →
      step s Event.timerFire ps = some (runPassT { s with timer := none } ps).1) := by
  refine ⟨?_, ?_, ?_⟩
  · intro s' h
    unfold runPassT passBody at h
    by_cases hr : s.restarting = true
    · by_cases hstop : (stopPlugins s.owned).2.isSome = true
      · simp [hr, hstop] at h
      · simp [hr, hstop] at h
        rw [← h]
    · simp [hr] at h
      rw [← h]
  · cases ht : s.timer <;> simp [step, ht]
  · intro d hd
    simp [step, hd]

/-- Witness for C4 (amended) at a concrete state with a pending timer. -/
theorem c4_amended_witness :
    step ⟨true, some 30, []⟩ Event.timerFire [] =
      some (runPassT ⟨true, none, []⟩ []).1 :=
  (c4_amended ⟨true, some 30, []⟩ []).2.2 30 rfl

/-! Configuration model. The Go `spec.Config` tree (from the external NVIDIA
config library) is modelled with exactly the fields the supervisor code
reads or writes: the plugin flags checked by `validateFlags`, the `GFD`
flags pointer cleared by `loadConfig`, and the `Resources` and
`Sharing.TimeSlicing` trees rewritten by `disableResourceRenamingInConfig`.
Every other field of the Go struct is passed through untouched by the code
under verification, so omitting it loses nothing. -/

/-- Model of `spec.ReplicatedDevices`: the `All` / `Count` / `List` union.
`list = none` models a nil Go slice. -/
structure ReplicatedDevices where
  all : Bool
  count : Int
  list : Option (List String)
deriving DecidableEq, Repr

/-- Model of one entry of `Sharing.TimeSlicing.Resources`: its resource
name, its `Rename` field, and its `Devices` selection. -/
structure TimeSlicingResource where
  name : String
  rename : String
  devices : ReplicatedDevices
deriving DecidableEq, Repr

/-- Model of `spec.TimeSlicing`. -/
structure TimeSlicing where
  renameByDefault : Bool
  resources : List TimeSlicingResource
deriving DecidableEq, Repr

/-- Model of `spec.Sharing`. -/
structure Sharing where
  timeSlicing : TimeSlicing
deriving DecidableEq, Repr

/-- Model of `spec.Resources` (the top-level `resources` customization):
only emptiness of the two pattern lists is observed by the code. -/
structure Resources where
  gpus : List String
  migs : List String
deriving DecidableEq, Repr

/-- Model of the plugin flags read by `validateFlags`. -/
structure PluginFlags where
  deviceListStrategy : List String
  deviceIDStrategy : String
deriving DecidableEq, Repr

/-- Model of `spec.Flags`: the plugin flags plus the `GFD` pointer cleared
by `loadConfig` (`none` models a nil pointer; `some ()` a non-nil one). -/
structure Flags where
  plugin : PluginFlags
  gfd : Option Unit
deriving DecidableEq, Repr

/-- Model of `spec.Config` restricted to the fields the supervisor code
touches. -/
structure Config where
  flags : Flags
  resources : Resources
  sharing : Sharing
deriving DecidableEq, Repr

/-- Embedding of `spec.ResourceName.DefaultSharedRename` from the external
NVIDIA config library: the default shared rename of a resource appends the
`.shared` suffix to its name. -/
def DefaultSharedRename (name : String) : String := name ++ (".shared")

/-- `spec.DeviceIDStrategyUUID`. -/
def DeviceIDStrategyUUID : String := "uuid"

/-- `spec.DeviceIDStrategyIndex`. -/
def DeviceIDStrategyIndex : String := "index"

/-- The enumerated device-list strategies, from the flag usage text in
main.go lines 100-104. -/
def validDeviceListStrategies : List String :=
  ["envvar", "volume-mounts", "cdi-annotations"]

/-- Modelled from the spec: `spec.NewDeviceListStrategies` lives in the
external NVIDIA config library, not in this repository. Per the spec and
the flag usage text in main.go, it accepts a list of strategies when every
member belongs to the enumerated set and rejects it otherwise. -/
def NewDeviceListStrategies (strategies : List String) : Except String Unit :=
  if ∀ s ∈ strategies, s ∈ validDeviceListStrategies then Except.ok ()
  else Except.error ("invalid strategy")

/-- Embedding of Go `validateFlags` (main.go lines 159-169). -/
def validateFlags (config : Config) : Except String Unit :=
  match NewDeviceListStrategies config.flags.plugin.deviceListStrategy with
  | Except.error e =>
      Except.error ("invalid --device-list-strategy option: " ++ e)
  | Except.ok _ =>
      if config.flags.plugin.deviceIDStrategy ≠ DeviceIDStrategyUUID ∧
         config.flags.plugin.deviceIDStrategy ≠ DeviceIDStrategyIndex then
        Except.error ("invalid --device-id-strategy option: " ++
          config.flags.plugin.deviceIDStrategy)
      else Except.ok ()

/-- Embedding of Go `loadConfig` (main.go lines 171-182). The result of
`spec.NewConfig` (external flag/env/file merging) is passed in as the
argument: on success the flags are validated and `config.Flags.GFD` is set
to nil before the config is returned. -/
def loadConfig (newConfig : Except String Config) : Except String Config :=
  match newConfig with
  | Except.error e => Except.error ("unable to finalize config: " ++ e)
  | Except.ok config =>
      match validateFlags config with
      | Except.error e => Except.error ("unable to validate flags: " ++ e)
      | Except.ok _ =>
          Except.ok { config with flags := { config.flags with gfd := none } }

/-- One iteration of the `for i, r := range config.Sharing.TimeSlicing.
Resources` loop of Go `disableResourceRenamingInConfig` (main.go lines
361-376). Each condition tests the loop copy `r` (the original entry) while
the writes land in the slice. Returns the rewritten entry, whether this
entry set `setsNonDefaultRename`, and whether it set `setsDevices`. -/
def normEntry (rbd : Bool) (r : TimeSlicingResource) :
    TimeSlicingResource × Bool × Bool :=
  let c1 : Bool := !rbd && !(r.rename == "")
  let r1 := if c1 = true then { r with rename := "" } else r
  let c2 : Bool := rbd && !(r.rename == DefaultSharedRename r.name)
  let r2 := if c2 = true then { r1 with rename := DefaultSharedRename r.name }
            else r1
  let c3 : Bool := !r.devices.all
  let r3 := if c3 = true then { r2 with devices := ⟨true, 0, none⟩ } else r2
  (r3, c1 || c2, c3)

/-- Embedding of Go `disableResourceRenamingInConfig` (main.go lines
349-383) as a pure function: returns the rewritten config together with the
three observation flags driving the log output — whether the `resources`
field was customized (main.go line 351), whether any entry set
`setsNonDefaultRename`, and whether any entry set `setsDevices`. The
corrections only warn; the function never fails. -/
def disableResourceRenamingInConfig (config : Config) :
    Config × Bool × Bool × Bool :=
  let resourcesCustomized : Bool :=
    !config.resources.gpus.isEmpty || !config.resources.migs.isEmpty
  let rbd := config.sharing.timeSlicing.renameByDefault
  let results := config.sharing.timeSlicing.resources.map (normEntry rbd)
  ({ config with
      resources := ⟨[], []⟩
      sharing := ⟨⟨rbd, results.map (fun x => x.1)⟩⟩ },
   resourcesCustomized,
   results.any (fun x => x.2.1),
   results.any (fun x => x.2.2))

/-! Helper lemmas about normalization. -/

lemma normEntry_name (rbd : Bool) (r : TimeSlicingResource) :
    (normEntry rbd r).1.name = r.name := by
  unfold normEntry
  by_cases h1 : (!rbd && !(r.rename == "")) = true <;>
    by_cases h2 : (rbd && !(r.rename == DefaultSharedRename r.name)) = true <;>
      by_cases h3 : (!r.devices.all) = true <;>
        simp [h1, h2, h3]

lemma normEntry_all (rbd : Bool) (r : TimeSlicingResource) :
    (normEntry rbd r).1.devices.all = true := by
  unfold normEntry
  cases ha : r.devices.all with
  | false => simp [ha]
  | true =>
      simp only [ha, Bool.not_true]
      simp
      split <;> (try split) <;> simp [ha]

lemma normEntry_rename (rbd : Bool) (r : TimeSlicingResource) :
    (normEntry rbd r).1.rename =
      (if rbd = true then DefaultSharedRename r.name else "") := by
  unfold normEntry
  cases rbd with
  | false =>
      by_cases h1 : (r.rename == "") = true <;>
        by_cases h3 : (!r.devices.all) = true <;>
          simp_all
  | true =>
      by_cases h2 : (r.rename == DefaultSharedRename r.name) = true <;>
        by_cases h3 : (!r.devices.all) = true <;>
          simp_all

lemma normEntry_devices_reset (rbd : Bool) (r : TimeSlicingResource)
    (h : r.devices.all = false) :
    (normEntry rbd r).1.devices = ⟨true, 0, none⟩ := by
  unfold normEntry
  simp [h]

/-- An entry already satisfying the normalized shape is a fixed point of
`normEntry` and raises no flags. -/
lemma normEntry_noop (rbd : Bool) (s : TimeSlicingResource)
    (hall : s.devices.all = true)
    (hren : s.rename = (if rbd = true then DefaultSharedRename s.name else "")) :
    normEntry rbd s = (s, false, false) := by
  unfold normEntry
  cases rbd <;> simp_all

lemma normEntry_idem (rbd : Bool) (r : TimeSlicingResource) :
    normEntry rbd (normEntry rbd r).1 = ((normEntry rbd r).1, false, false) := by
  refine normEntry_noop rbd _ (normEntry_all rbd r) ?_
  rw [normEntry_rename, normEntry_name]

/-! Concrete configurations used by witnesses and counterexamples. -/

/-- An entry that already has `Devices.All` set but keeps a non-zero count
and a non-nil list. -/
def c5BadEntry : TimeSlicingResource := ⟨"gpu", "", ⟨true, 3, some ["a"]⟩⟩

/-- A config carrying `c5BadEntry` in its time-slicing resources. -/
def c5BadConfig : Config :=
  ⟨⟨⟨["envvar"], "uuid"⟩, none⟩, ⟨[], []⟩, ⟨⟨false, [c5BadEntry]⟩⟩⟩

/-- An entry restricting device selection (`All` false) with a custom
rename. -/
def c5InEntry : TimeSlicingResource := ⟨"gpu", "custom", ⟨false, 2, some ["a"]⟩⟩

/-- A config carrying `c5InEntry` in its time-slicing resources. -/
def c5InConfig : Config :=
  ⟨⟨⟨["envvar"], "uuid"⟩, none⟩, ⟨[], []⟩, ⟨⟨false, [c5InEntry]⟩⟩⟩

/-! Claim C5: sharing-policy enforcement. -/

/-- Claim C5 counterexample: the claim states that after normalization every
entry satisfies `Devices.All == true`, `Devices.Count == 0` and
`Devices.List == nil` regardless of the input values. In the code (main.go
lines 370-375) `Count` and `List` are only reset inside the `if
!r.Devices.All` branch: an input entry with `All == true` but `Count == 3`
and a non-nil `List` is left untouched, so the normalized entry violates
`Count == 0` and `List == nil`. -/
theorem c5_counterexample :
    ¬ (∀ (c : Config),
        ∀ r ∈ (disableResourceRenamingInConfig c).1.sharing.timeSlicing.resources,
          r.devices.all = true ∧ r.devices.count = 0 ∧ r.devices.list = none) := by
  intro hclaim
  have h := hclaim c5BadConfig c5BadEntry (by decide)
  exact absurd h.2.1 (by decide)

/-- Claim C5 (amended): after normalization every entry has
`Devices.All == true` and `Rename` equal to the policy-determined default
(empty when `RenameByDefault` is false, the default shared rename of the
entry when true), and every entry whose INPUT had `Devices.All == false` is
reset to `Devices = (All: true, Count: 0, List: nil)`; entries whose input
already had `All == true` keep their `Count` and `List` values. The
corrections only raise warning flags and never make normalization fail. -/
theorem c5_amended (c : Config) (r : TimeSlicingResource)
    (h : r ∈ c.sharing.timeSlicing.resources) :
    (disableResourceRenamingInConfig c).1.sharing.timeSlicing.resources =
      c.sharing.timeSlicing.resources.map
        (fun x => (normEntry c.sharing.timeSlicing.renameByDefault x).1) ∧
    (normEntry c.sharing.timeSlicing.renameByDefault r).1 ∈
      (disableResourceRenamingInConfig c).1.sharing.timeSlicing.resources ∧
    (normEntry c.sharing.timeSlicing.renameByDefault r).1.devices.all = true ∧
    (normEntry c.sharing.timeSlicing.renameByDefault r).1.rename =
      (if c.sharing.timeSlicing.renameByDefault = true
       then DefaultSharedRename r.name else "") ∧
    (r.devices.all = false →
      (normEntry c.sharing.timeSlicing.renameByDefault r).1.devices =
        ⟨true, 0, none⟩) := by
  have hmap : (disableResourceRenamingInConfig c).1.sharing.timeSlicing.resources =
      c.sharing.timeSlicing.resources.map
        (fun x => (normEntry c.sharing.timeSlicing.renameByDefault x).1) := by
    simp [disableResourceRenamingInConfig, List.map_map]
  refine ⟨hmap, ?_, normEntry_all _ _, normEntry_rename _ _,
    normEntry_devices_reset _ _⟩
  rw [hmap]
  exact List.mem_map_of_mem _ h

/-- Witness for C5 (amended) at a concrete config whose entry restricts
device selection. -/
theorem c5_amended_witness :
    (normEntry c5InConfig.sharing.timeSlicing.renameByDefault c5InEntry).1.devices =
      ⟨true, 0, none⟩ :=
  (c5_amended c5InConfig c5InEntry (by decide)).2.2.2.2 (by decide)

/-! Claim C6: normalization idempotence. -/

/-- Claim C6: the config normalizer is idempotent: applying
`disableResourceRenamingInConfig` to its own output returns that output
unchanged, with no correction flag set on the second run (no `resources`
customization observed, no `setsNonDefaultRename`, no `setsDevices`). -/
theorem c6_idempotent (c : Config) :
    disableResourceRenamingInConfig (disableResourceRenamingInConfig c).1 =
      ((disableResourceRenamingInConfig c).1, false, false, false) := by
  cases c with
  | mk fl res sh =>
      cases sh with
      | mk ts =>
          cases ts with
          | mk rbd rs =>
              have key : List.map (normEntry rbd)
                  (List.map (fun x => (normEntry rbd x).1) rs) =
                  List.map (fun x => ((normEntry rbd x).1, false, false)) rs := by
                induction rs with
                | nil => rfl
                | cons x rs ih =>
                    simp only [List.map_cons, ih, normEntry_idem]
              simp only [disableResourceRenamingInConfig]
              simp [key]
              refine ⟨fun a _ => ?_, fun a _ => ?_, fun a _ => ?_⟩ <;>
                rw [normEntry_idem]

/-! Claim C7: enum validation of the strategy flags. -/

/-- Claim C7: config loading fails with an invalid-option error whenever the
device-ID strategy is outside the enumerated set, and whenever any
device-list strategy is outside its enumerated set; when the device-ID
strategy is `uuid` or `index` and every device-list strategy is in the
enumerated set, flag validation succeeds. -/
theorem c7_enum_validation (cfg : Config) :
    ((cfg.flags.plugin.deviceIDStrategy ≠ DeviceIDStrategyUUID ∧
      cfg.flags.plugin.deviceIDStrategy ≠ DeviceIDStrategyIndex) →
      ∃ e, loadConfig (Except.ok cfg) = Except.error e) ∧
    ((∃ s ∈ cfg.flags.plugin.deviceListStrategy,
        s ∉ validDeviceListStrategies) →
      ∃ e, loadConfig (Except.ok cfg) = Except.error e) ∧
    (((cfg.flags.plugin.deviceIDStrategy = DeviceIDStrategyUUID ∨
       cfg.flags.plugin.deviceIDStrategy = DeviceIDStrategyIndex) ∧
      (∀ s ∈ cfg.flags.plugin.deviceListStrategy,
        s ∈ validDeviceListStrategies)) →
      validateFlags cfg = Except.ok ()) := by
  refine ⟨?_, ?_, ?_⟩
  · rintro ⟨h1, h2⟩
    have hv : ∃ e, validateFlags cfg = Except.error e := by
      unfold validateFlags
      cases hn : NewDeviceListStrategies cfg.flags.plugin.deviceListStrategy with
      | error e => exact ⟨_, rfl⟩
      | ok u =>
          rw [if_pos ⟨h1, h2⟩]
          exact ⟨_, rfl⟩
    obtain ⟨e, he⟩ := hv
    exact ⟨"unable to validate flags: " ++ e, by simp [loadConfig, he]⟩
  · rintro ⟨s, hs, hns⟩
    have hall : ¬ (∀ x ∈ cfg.flags.plugin.deviceListStrategy,
        x ∈ validDeviceListStrategies) := fun hc => hns (hc s hs)
    have hn : NewDeviceListStrategies cfg.flags.plugin.deviceListStrategy =
        Except.error ("invalid strategy") := by
      unfold NewDeviceListStrategies
      rw [if_neg hall]
    have hv : ∃ e, validateFlags cfg = Except.error e := by
      unfold validateFlags
      rw [hn]
      exact ⟨_, rfl⟩
    obtain ⟨e, he⟩ := hv
    exact ⟨"unable to validate flags: " ++ e, by simp [loadConfig, he]⟩
  · rintro ⟨hid, hlist⟩
    have hn : NewDeviceListStrategies cfg.flags.plugin.deviceListStrategy =
        Except.ok () := by
      unfold NewDeviceListStrategies
      rw [if_pos hlist]
    unfold validateFlags
    rw [hn, if_neg]
    rcases hid with h | h <;> simp [h]

/-- A config whose device-ID strategy is outside the enumerated set. -/
def c7BadIdConfig : Config :=
  ⟨⟨⟨["envvar"], "bogus"⟩, none⟩, ⟨[], []⟩, ⟨⟨false, []⟩⟩⟩

/-- A config with valid strategies and a non-nil GFD pointer. -/
def c7GoodConfig : Config :=
  ⟨⟨⟨["envvar"], "uuid"⟩, some ()⟩, ⟨[], []⟩, ⟨⟨false, []⟩⟩⟩

/-- Witness for C7 at concrete configs: loading fails for the bad
device-ID strategy; validation succeeds for the valid strategies. -/
theorem c7_enum_validation_witness :
    (∃ e, loadConfig (Except.ok c7BadIdConfig) = Except.error e) ∧
    validateFlags c7GoodConfig = Except.ok () :=
  ⟨(c7_enum_validation c7BadIdConfig).1 (by decide),
   (c7_enum_validation c7GoodConfig).2.2 (by decide)⟩

/-! Claim C10: loadConfig clears the GFD flags. -/

/-- Claim C10: whenever `loadConfig` returns without error, the returned
config has `Flags.GFD == nil` unconditionally, while the rest of the
validated configuration (the plugin flags, the resources, the sharing
policy) is returned unchanged from the config produced by `spec.NewConfig`
and accepted by `validateFlags`. -/
theorem c10_gfd_cleared (r : Except String Config) (c : Config)
    (h : loadConfig r = Except.ok c) :
    c.flags.gfd = none ∧
    ∃ c0 : Config, r = Except.ok c0 ∧ validateFlags c0 = Except.ok () ∧
      c.flags.plugin = c0.flags.plugin ∧ c.resources = c0.resources ∧
      c.sharing = c0.sharing := by
  cases r with
  | error e => simp [loadConfig] at h
  | ok c0 =>
      cases hv : validateFlags c0 with
      | error e => simp [loadConfig, hv] at h
      | ok u =>
          cases u
          simp only [loadConfig, hv, Except.ok.injEq] at h
          subst h
          exact ⟨rfl, c0, rfl, hv, rfl, rfl, rfl⟩

/-- The config `loadConfig` returns for `c7GoodConfig`: the same config
with the GFD pointer cleared. -/
def c10OutConfig : Config :=
  ⟨⟨⟨["envvar"], "uuid"⟩, none⟩, ⟨[], []⟩, ⟨⟨false, []⟩⟩⟩

/-- Witness for C10 at a concrete `spec.NewConfig` result. -/
theorem c10_gfd_cleared_witness :
    c10OutConfig.flags.gfd = none ∧
    ∃ c0 : Config, (Except.ok c7GoodConfig : Except String Config) = Except.ok c0 ∧
      validateFlags c0 = Except.ok () ∧
      c10OutConfig.flags.plugin = c0.flags.plugin ∧
      c10OutConfig.resources = c0.resources ∧
      c10OutConfig.sharing = c0.sharing :=
  c10_gfd_cleared (Except.ok c7GoodConfig) c10OutConfig (by rfl)
